import Mathlib

/-!
Shallow embedding of the pose classification engine of the
`monkey_pose_mimic` repository (`src/pose_detector.py`, thresholds from
`src/config.py`).

Landmark coordinates are modelled as rationals.  A landmark structure is a
fixed-size indexed family of points (33 body points, 21 hand points, 468
face points), matching the MediaPipe layout the source indexes into.  The
mutable `self.debug_info` field becomes explicit state passing: each rule
takes the current `DebugInfo` and returns the updated one together with
its boolean result, exactly mirroring the assignments in the source.
-/

/-- A single landmark: normalized coordinates, `y` increases downward. -/
structure LandmarkPoint where
  x : ℚ
  y : ℚ
  z : ℚ
  deriving DecidableEq

/-- Body pose landmarks: 33 points (MediaPipe Pose). -/
abbrev BodyLandmarks := Fin 33 → LandmarkPoint

/-- Hand landmarks: 21 points per hand (MediaPipe Hands). -/
abbrev HandLandmarks := Fin 21 → LandmarkPoint

/-- Face mesh landmarks: 468 points (MediaPipe FaceMesh). -/
abbrev FaceLandmarks := Fin 468 → LandmarkPoint

/-- `mp_pose.PoseLandmark.NOSE`. -/
def NOSE : Fin 33 := 0

/-- `mp_hands.HandLandmark.WRIST`. -/
def WRIST : Fin 21 := 0

/-- `mp_hands.HandLandmark.THUMB_TIP`. -/
def THUMB_TIP : Fin 21 := 4

/-- `mp_hands.HandLandmark.INDEX_FINGER_TIP`. -/
def INDEX_FINGER_TIP : Fin 21 := 8

/-- `mp_hands.HandLandmark.MIDDLE_FINGER_TIP`. -/
def MIDDLE_FINGER_TIP : Fin 21 := 12

/-- The landmark data available for one frame: optional body landmarks,
zero or more hands, zero or more faces (`pose_results.pose_landmarks`,
`hand_results.multi_hand_landmarks`, `face_results.multi_face_landmarks`). -/
structure LandmarkSnapshot where
  body : Option BodyLandmarks
  hands : List HandLandmarks
  faces : List FaceLandmarks

/-- The three classification thresholds of `PoseDetectionConfig`. -/
structure ThresholdConfig where
  hand_raise_threshold : ℚ
  mouth_open_threshold : ℚ
  hand_to_face_threshold : ℚ

/-- Default thresholds from `config.py` (0.05, 0.15, 0.08). -/
def CONFIG : ThresholdConfig :=
  { hand_raise_threshold := 1/20
    mouth_open_threshold := 3/20
    hand_to_face_threshold := 2/25 }

/-- `DebugInfo` dataclass: all fields default to zero / false. -/
structure DebugInfo where
  mouth_ratio : ℚ := 0
  hand_height : ℚ := 0
  hands_detected : ℕ := 0
  face_detected : Bool := false
  deriving DecidableEq

/-- The loop over `hand_results.multi_hand_landmarks` inside
`_is_raising_hand`: records `hand_height = nose_y - wrist_y` for every
hand it visits and returns `True` as soon as the difference exceeds the
threshold. -/
def raising_hand_loop (nose_y thr : ℚ) :
    List HandLandmarks → DebugInfo → Bool × DebugInfo
  | [], di => (false, di)
  | h :: rest, di =>
    let height_diff := nose_y - (h WRIST).y
    let di2 := { di with hand_height := height_diff }
    if height_diff > thr then (true, di2)
    else raising_hand_loop nose_y thr rest di2

/-- `PoseDetector._is_raising_hand`: absent body or absent hands zero the
`hand_height` metric and do not fire; otherwise iterate over the hands. -/
def is_raising_hand (body : Option BodyLandmarks) (hands : List HandLandmarks)
    (thr : ℚ) (di : DebugInfo) : Bool × DebugInfo :=
  match body, hands with
  | none, _ => (false, { di with hand_height := 0 })
  | some _, [] => (false, { di with hand_height := 0 })
  | some b, h :: hs => raising_hand_loop (b NOSE).y thr (h :: hs) di

/-- `PoseDetector._is_shocking`: mouth ratio on the first face, with the
division-by-zero guard, written exactly as the source computes it. -/
def is_shocking (faces : List FaceLandmarks) (thr : ℚ)
    (di : DebugInfo) : Bool × DebugInfo :=
  match faces with
  | [] => (false, { di with mouth_ratio := 0 })
  | f :: _ =>
    let upper_lip := (f 13).y
    let lower_lip := (f 14).y
    let forehead := (f 10).y
    let chin := (f 152).y
    let face_height := |chin - forehead|
    let mouth_opening := |lower_lip - upper_lip|
    let mouth_ratio := if face_height > 0 then mouth_opening / face_height else 0
    let di2 := { di with mouth_ratio := mouth_ratio }
    (decide (mouth_ratio > thr), di2)

/-- The three fingertips `_is_thinking` collects per hand. -/
def finger_tips (h : HandLandmarks) : List LandmarkPoint :=
  [h THUMB_TIP, h INDEX_FINGER_TIP, h MIDDLE_FINGER_TIP]

/-- The four mouth-region points `_is_thinking` collects from the first
face: upper lip (13), lower lip (14), chin (152), mouth center (0). -/
def mouth_points (f : FaceLandmarks) : List LandmarkPoint :=
  [f 13, f 14, f 152, f 0]

/-- Squared 2D distance between a fingertip and a mouth point, using only
the x and y coordinates, as under the `np.sqrt` in the source. -/
def dist2 (p q : LandmarkPoint) : ℚ :=
  (p.x - q.x) ^ 2 + (p.y - q.y) ^ 2

/-- The source compares `np.sqrt(dist2) < threshold`; over the rationals
this is equivalent to `0 < threshold ∧ dist2 < threshold ^ 2`, which is
the decidable form used here (the equivalence with the real square root
is proved in `close_to_mouth_iff_sqrt`). -/
def close_to_mouth (thr : ℚ) (ft mp : LandmarkPoint) : Bool :=
  decide (0 < thr ∧ dist2 ft mp < thr ^ 2)

/-- `PoseDetector._is_thinking`: fires when some fingertip of some hand is
strictly closer than the threshold to some mouth-region point of the
first face; absence of a face or of hands means it does not fire. -/
def is_thinking (hands : List HandLandmarks) (faces : List FaceLandmarks)
    (thr : ℚ) : Bool :=
  match faces, hands with
  | [], _ => false
  | _, [] => false
  | f :: _, h :: hs =>
    (h :: hs).any fun hand =>
      (finger_tips hand).any fun ft =>
        (mouth_points f).any fun mp => close_to_mouth thr ft mp

/-- `PoseDetector._determine_pose`: the fixed priority chain
raising_hand > thinking > shocking > default, threading the debug state
exactly as the Python attribute mutations do. -/
def determine_pose (s : LandmarkSnapshot) (cfg : ThresholdConfig)
    (di : DebugInfo) : String × DebugInfo :=
  let r := is_raising_hand s.body s.hands cfg.hand_raise_threshold di
  if r.1 then ("raising_hand", r.2)
  else if is_thinking s.hands s.faces cfg.hand_to_face_threshold then
    ("thinking", r.2)
  else
    let sh := is_shocking s.faces cfg.mouth_open_threshold r.2
    if sh.1 then ("shocking", sh.2) else ("default", sh.2)

/-- The debug-info update block of `detect_pose` (lines 122-127): mark the
face as detected when a face is present, record the hand count when hands
are present. -/
def update_presence (s : LandmarkSnapshot) (di : DebugInfo) : DebugInfo :=
  let di1 := if s.faces.isEmpty then di else { di with face_detected := true }
  if s.hands.isEmpty then di1 else { di1 with hands_detected := s.hands.length }

/-- The successful path of `PoseDetector.detect_pose`: reset the debug
info, record presence, classify. -/
def classify (s : LandmarkSnapshot) (cfg : ThresholdConfig) :
    String × DebugInfo :=
  determine_pose s cfg (update_presence s {})

/-- What a frame produces inside `detect_pose`: either the conversion to
RGB raises (`cv2.error`), or one of the three `process` calls raises, or
detection succeeds with a snapshot of landmarks. -/
inductive FrameOutcome where
  | convert_error : FrameOutcome
  | detect_error : FrameOutcome
  | ok : LandmarkSnapshot → FrameOutcome

/-- `PoseDetector.detect_pose` with its stored `self.debug_info` made
explicit: the two early-return error paths keep the stored metrics
untouched (they precede the `self.debug_info = DebugInfo()` reset),
while the successful path ignores them entirely. -/
def detect_pose (cfg : ThresholdConfig) (stored : DebugInfo)
    (fr : FrameOutcome) : String × DebugInfo :=
  match fr with
  | FrameOutcome.convert_error => ("default", stored)
  | FrameOutcome.detect_error => ("default", stored)
  | FrameOutcome.ok s => classify s cfg

/-- The condition under which the RaisingHand rule fires (its boolean
result is independent of the incoming debug state). -/
def raising_cond (s : LandmarkSnapshot) (cfg : ThresholdConfig) : Prop :=
  (is_raising_hand s.body s.hands cfg.hand_raise_threshold {}).1 = true

/-- The condition under which the Thinking rule fires. -/
def thinking_cond (s : LandmarkSnapshot) (cfg : ThresholdConfig) : Prop :=
  is_thinking s.hands s.faces cfg.hand_to_face_threshold = true

/-- The condition under which the Shocking rule fires. -/
def shocking_cond (s : LandmarkSnapshot) (cfg : ThresholdConfig) : Prop :=
  (is_shocking s.faces cfg.mouth_open_threshold {}).1 = true

instance (s : LandmarkSnapshot) (cfg : ThresholdConfig) :
    Decidable (raising_cond s cfg) := by unfold raising_cond; infer_instance

instance (s : LandmarkSnapshot) (cfg : ThresholdConfig) :
    Decidable (thinking_cond s cfg) := by unfold thinking_cond; infer_instance

instance (s : LandmarkSnapshot) (cfg : ThresholdConfig) :
    Decidable (shocking_cond s cfg) := by unfold shocking_cond; infer_instance

/-- A landmark structure whose points all sit at one position. -/
def const_point (xv yv : ℚ) : LandmarkPoint :=
  { x := xv, y := yv, z := 0 }

/-- Synthetic snapshot satisfying both the RaisingHand and the Thinking
conditions: nose at y = 0.4, one hand entirely at (0.5, 0.3), one face
entirely at (0.5, 0.31). -/
def snap_raise_think : LandmarkSnapshot :=
  { body := some fun _ => const_point (1/2) (2/5)
    hands := [fun _ => const_point (1/2) (3/10)]
    faces := [fun _ => const_point (1/2) (31/100)] }

/-- Synthetic face with forehead y = 0.1, chin y = 0.6, upper lip y = 0.3,
lower lip y = 0.45, every other point at (0.5, 0.31): mouth ratio 0.3. -/
def wide_mouth_face : FaceLandmarks := fun i =>
  if i = 10 then const_point (1/2) (1/10)
  else if i = 152 then const_point (1/2) (3/5)
  else if i = 13 then const_point (1/2) (3/10)
  else if i = 14 then const_point (1/2) (9/20)
  else const_point (1/2) (31/100)

/-- Synthetic snapshot satisfying both the Thinking and the Shocking
conditions but not RaisingHand (no body landmarks). -/
def snap_think_shock : LandmarkSnapshot :=
  { body := none
    hands := [fun _ => const_point (1/2) (3/10)]
    faces := [wide_mouth_face] }

/-- The empty snapshot: no body, no hands, no faces. -/
def empty_snapshot : LandmarkSnapshot :=
  { body := none, hands := [], faces := [] }

/-- A body whose nose sits at y = 0.4. -/
def body1 : BodyLandmarks := fun _ => const_point (1/2) (2/5)

/-- A hand whose wrist sits at y = 0.3 (height difference 0.1 from
`body1`). -/
def hand1 : HandLandmarks := fun _ => const_point (1/2) (3/10)

/-- A hand whose wrist sits at y = 0.4 (height difference 0 from
`body1`). -/
def hand_low : HandLandmarks := fun _ => const_point (1/2) (2/5)

/-- The face of `snap_raise_think`: all points at (0.5, 0.31). -/
def face_flat : FaceLandmarks := fun _ => const_point (1/2) (31/100)

lemma raising_hand_loop_fst_indep (ny t : ℚ) (hs : List HandLandmarks)
    (di di' : DebugInfo) :
    (raising_hand_loop ny t hs di).1 = (raising_hand_loop ny t hs di').1 := by
  induction hs generalizing di di' with
  | nil => rfl
  | cons h rest ih =>
    simp only [raising_hand_loop]
    by_cases hc : ny - (h WRIST).y > t
    · simp [hc]
    · simp [hc]
      exact ih _ _

lemma is_raising_hand_fst_indep (body : Option BodyLandmarks)
    (hands : List HandLandmarks) (t : ℚ) (di di' : DebugInfo) :
    (is_raising_hand body hands t di).1 = (is_raising_hand body hands t di').1 := by
  cases body with
  | none => rfl
  | some b =>
    cases hands with
    | nil => rfl
    | cons h hs => exact raising_hand_loop_fst_indep _ _ _ _ _

lemma is_shocking_fst_indep (faces : List FaceLandmarks) (t : ℚ)
    (di di' : DebugInfo) :
    (is_shocking faces t di).1 = (is_shocking faces t di').1 := by
  cases faces with
  | nil => rfl
  | cons f fs => rfl

lemma raising_hand_loop_fst_iff (ny t : ℚ) (hs : List HandLandmarks)
    (di : DebugInfo) :
    (raising_hand_loop ny t hs di).1 = true ↔
      ∃ h ∈ hs, t < ny - (h WRIST).y := by
  induction hs generalizing di with
  | nil => simp [raising_hand_loop]
  | cons h rest ih =>
    simp only [raising_hand_loop]
    by_cases hc : ny - (h WRIST).y > t
    · simp [hc]
    · simp only [hc, if_false, ih]
      simp [hc]

lemma raising_hand_loop_fire_head (ny t : ℚ) (h : HandLandmarks)
    (rest : List HandLandmarks) (di : DebugInfo)
    (hh : t < ny - (h WRIST).y) :
    raising_hand_loop ny t (h :: rest) di =
      (true, { di with hand_height := ny - (h WRIST).y }) := by
  simp [raising_hand_loop, hh]

lemma raising_hand_loop_first_fire (ny t : ℚ) (pre : List HandLandmarks)
    (h : HandLandmarks) (post : List HandLandmarks) (di : DebugInfo)
    (hpre : ∀ h2 ∈ pre, ny - (h2 WRIST).y ≤ t)
    (hh : t < ny - (h WRIST).y) :
    raising_hand_loop ny t (pre ++ h :: post) di =
      (true, { di with hand_height := ny - (h WRIST).y }) := by
  induction pre generalizing di with
  | nil => simpa using raising_hand_loop_fire_head ny t h post di hh
  | cons p ps ih =>
    have hp : ¬ (ny - (p WRIST).y > t) := not_lt.mpr (hpre p (by simp))
    simp only [List.cons_append, raising_hand_loop, hp, if_false]
    exact ih _ (fun h2 hm => hpre h2 (by simp [hm]))

lemma raising_hand_loop_no_fire (ny t : ℚ) (hs : List HandLandmarks)
    (di : DebugInfo) (hall : ∀ h2 ∈ hs, ny - (h2 WRIST).y ≤ t)
    (h : HandLandmarks) (hlast : hs.getLast? = some h) :
    raising_hand_loop ny t hs di =
      (false, { di with hand_height := ny - (h WRIST).y }) := by
  induction hs generalizing di with
  | nil => simp at hlast
  | cons p ps ih =>
    have hp : ¬ (ny - (p WRIST).y > t) := not_lt.mpr (hall p (by simp))
    cases ps with
    | nil =>
      simp only [List.getLast?_singleton, Option.some.injEq] at hlast
      subst hlast
      simp [raising_hand_loop, hp]
    | cons q qs =>
      rw [List.getLast?_cons_cons] at hlast
      simp only [raising_hand_loop, hp, if_false]
      exact ih _ (fun h2 hm => hall h2 (by simp [hm])) hlast

lemma close_to_mouth_iff_sqrt (thr : ℚ) (ft mp : LandmarkPoint) :
    close_to_mouth thr ft mp = true ↔
      Real.sqrt ((dist2 ft mp : ℚ) : ℝ) < (thr : ℝ) := by
  unfold close_to_mouth
  rw [decide_eq_true_eq]
  constructor
  · rintro ⟨ht, hd⟩
    have ht2 : (0 : ℝ) < (thr : ℝ) := by exact_mod_cast ht
    rw [Real.sqrt_lt' ht2]
    exact_mod_cast hd
  · intro h
    have ht2 : (0 : ℝ) < (thr : ℝ) := lt_of_le_of_lt (Real.sqrt_nonneg _) h
    have ht : 0 < thr := by exact_mod_cast ht2
    refine ⟨ht, ?_⟩
    have hd2 := (Real.sqrt_lt' ht2).mp h
    exact_mod_cast hd2

lemma is_thinking_cons_iff (f : FaceLandmarks) (fs : List FaceLandmarks)
    (h0 : HandLandmarks) (hs : List HandLandmarks) (t : ℚ) :
    is_thinking (h0 :: hs) (f :: fs) t = true ↔
      ∃ hand ∈ h0 :: hs, ∃ ft ∈ finger_tips hand, ∃ mp ∈ mouth_points f,
        close_to_mouth t ft mp = true := by
  simp [is_thinking, List.any_eq_true]

lemma raising_hand_loop_mouth (ny t : ℚ) (hs : List HandLandmarks)
    (di : DebugInfo) :
    (raising_hand_loop ny t hs di).2.mouth_ratio = di.mouth_ratio := by
  induction hs generalizing di with
  | nil => rfl
  | cons h rest ih =>
    simp only [raising_hand_loop]
    by_cases hc : ny - (h WRIST).y > t
    · simp [hc]
    · simp [hc, ih]

lemma is_raising_hand_mouth (body : Option BodyLandmarks)
    (hands : List HandLandmarks) (t : ℚ) (di : DebugInfo) :
    (is_raising_hand body hands t di).2.mouth_ratio = di.mouth_ratio := by
  cases body with
  | none => rfl
  | some b =>
    cases hands with
    | nil => rfl
    | cons h hs => exact raising_hand_loop_mouth _ _ _ _

lemma update_presence_mouth (s : LandmarkSnapshot) (di : DebugInfo) :
    (update_presence s di).mouth_ratio = di.mouth_ratio := by
  unfold update_presence
  by_cases h1 : s.faces.isEmpty <;> by_cases h2 : s.hands.isEmpty <;>
    simp [h1, h2]

lemma is_shocking_mouth_nonneg (faces : List FaceLandmarks) (t : ℚ)
    (di : DebugInfo) :
    0 ≤ (is_shocking faces t di).2.mouth_ratio := by
  cases faces with
  | nil => simp [is_shocking]
  | cons f fs =>
    simp only [is_shocking]
    by_cases hpos : |(f 152).y - (f 10).y| > 0
    · simp only [hpos, if_true]
      exact div_nonneg (abs_nonneg _) (le_of_lt hpos)
    · simp [hpos]

lemma classify_of_raising (s : LandmarkSnapshot) (cfg : ThresholdConfig)
    (h : raising_cond s cfg) :
    classify s cfg =
      ("raising_hand",
        (is_raising_hand s.body s.hands cfg.hand_raise_threshold
          (update_presence s {})).2) := by
  have hkey : (is_raising_hand s.body s.hands cfg.hand_raise_threshold
      (update_presence s {})).1 = true := by
    rw [is_raising_hand_fst_indep s.body s.hands cfg.hand_raise_threshold
      (update_presence s {}) {}]
    exact h
  simp [classify, determine_pose, hkey]

lemma classify_of_thinking (s : LandmarkSnapshot) (cfg : ThresholdConfig)
    (h1 : ¬ raising_cond s cfg) (h2 : thinking_cond s cfg) :
    classify s cfg =
      ("thinking",
        (is_raising_hand s.body s.hands cfg.hand_raise_threshold
          (update_presence s {})).2) := by
  unfold raising_cond at h1
  unfold thinking_cond at h2
  have hkey : (is_raising_hand s.body s.hands cfg.hand_raise_threshold
      (update_presence s {})).1 = false := by
    rw [is_raising_hand_fst_indep s.body s.hands cfg.hand_raise_threshold
      (update_presence s {}) {}]
    cases hb : (is_raising_hand s.body s.hands cfg.hand_raise_threshold
        ({} : DebugInfo)).1 with
    | false => rfl
    | true => exact absurd hb h1
  simp [classify, determine_pose, hkey, h2]

/-- C1: `_determine_pose` evaluates the rules in the fixed priority order
RaisingHand, Thinking, Shocking, Default and returns the first rule that
fires: whenever the RaisingHand condition holds the label is
"raising_hand" (regardless of the other conditions), and whenever the
Thinking condition holds but RaisingHand does not, the label is
"thinking" (regardless of the Shocking condition). -/
theorem determine_pose_priority (s : LandmarkSnapshot) (cfg : ThresholdConfig) :
    (raising_cond s cfg → (classify s cfg).1 = "raising_hand") ∧
    (¬ raising_cond s cfg → thinking_cond s cfg →
      (classify s cfg).1 = "thinking") := by
  constructor
  · intro hr
    rw [classify_of_raising s cfg hr]
  · intro hnr ht
    rw [classify_of_thinking s cfg hnr ht]

/-- Witness for C1: a snapshot satisfying both the RaisingHand and
Thinking conditions classifies as "raising_hand", and a snapshot
satisfying both the Thinking and Shocking conditions but not RaisingHand
classifies as "thinking". -/
theorem determine_pose_priority_witness :
    (raising_cond snap_raise_think CONFIG ∧ thinking_cond snap_raise_think CONFIG ∧
      (classify snap_raise_think CONFIG).1 = "raising_hand") ∧
    (¬ raising_cond snap_think_shock CONFIG ∧ thinking_cond snap_think_shock CONFIG ∧
      shocking_cond snap_think_shock CONFIG ∧
      (classify snap_think_shock CONFIG).1 = "thinking") :=
  ⟨⟨by norm_num +decide [raising_cond, snap_raise_think, is_raising_hand,
        raising_hand_loop, const_point, CONFIG, NOSE, WRIST],
    by norm_num +decide [thinking_cond, snap_raise_think, is_thinking,
        close_to_mouth, dist2, finger_tips, mouth_points, const_point, CONFIG,
        THUMB_TIP, INDEX_FINGER_TIP, MIDDLE_FINGER_TIP],
    (determine_pose_priority snap_raise_think CONFIG).1
      (by norm_num +decide [raising_cond, snap_raise_think, is_raising_hand,
        raising_hand_loop, const_point, CONFIG, NOSE, WRIST])⟩,
   ⟨by norm_num +decide [raising_cond, snap_think_shock, is_raising_hand],
    by norm_num +decide [thinking_cond, snap_think_shock, is_thinking,
        close_to_mouth, dist2, finger_tips, mouth_points, const_point,
        wide_mouth_face, CONFIG, THUMB_TIP, INDEX_FINGER_TIP, MIDDLE_FINGER_TIP],
    by norm_num +decide [shocking_cond, snap_think_shock, is_shocking,
        wide_mouth_face, const_point, CONFIG, abs],
    (determine_pose_priority snap_think_shock CONFIG).2
      (by norm_num +decide [raising_cond, snap_think_shock, is_raising_hand])
      (by norm_num +decide [thinking_cond, snap_think_shock, is_thinking,
        close_to_mouth, dist2, finger_tips, mouth_points, const_point,
        wide_mouth_face, CONFIG, THUMB_TIP, INDEX_FINGER_TIP, MIDDLE_FINGER_TIP])⟩⟩

/-- C2: with body landmarks and at least one hand present, `_is_raising_hand`
fires iff some hand has `nose_y - wrist_y` strictly greater than the
threshold; the boundary `height_diff = t` (and anything below) does not
fire; on the first hand exceeding the threshold it returns immediately,
independent of the remaining hands, and the Thinking/Shocking rules are
then never evaluated (the mouth ratio keeps its reset value 0). -/
theorem raising_hand_fires_iff (b : BodyLandmarks) (hands : List HandLandmarks)
    (t : ℚ) (di : DebugInfo) (hne : hands ≠ []) :
    ((is_raising_hand (some b) hands t di).1 = true ↔
       ∃ h ∈ hands, t < (b NOSE).y - (h WRIST).y) ∧
    ((∀ h ∈ hands, (b NOSE).y - (h WRIST).y ≤ t) →
       (is_raising_hand (some b) hands t di).1 = false) ∧
    (∀ (h : HandLandmarks) (rest rest2 : List HandLandmarks),
       t < (b NOSE).y - (h WRIST).y →
       is_raising_hand (some b) (h :: rest) t di =
         (true, { di with hand_height := (b NOSE).y - (h WRIST).y }) ∧
       is_raising_hand (some b) (h :: rest) t di =
         is_raising_hand (some b) (h :: rest2) t di) ∧
    (∀ (s : LandmarkSnapshot) (cfg : ThresholdConfig), raising_cond s cfg →
       (classify s cfg).1 = "raising_hand" ∧
       (classify s cfg).2.mouth_ratio = 0) := by
  refine ⟨?_, ?_, ?_, ?_⟩
  · cases hands with
    | nil => exact absurd rfl hne
    | cons h hs => exact raising_hand_loop_fst_iff (b NOSE).y t (h :: hs) di
  · intro hall
    cases hands with
    | nil => exact absurd rfl hne
    | cons h hs =>
      cases hb : (is_raising_hand (some b) (h :: hs) t di).1 with
      | false => rfl
      | true =>
        obtain ⟨h2, hm, hlt⟩ :=
          (raising_hand_loop_fst_iff (b NOSE).y t (h :: hs) di).mp hb
        exact absurd hlt (not_lt.mpr (hall h2 hm))
  · intro h rest rest2 hlt
    constructor
    · exact raising_hand_loop_fire_head (b NOSE).y t h rest di hlt
    · exact (raising_hand_loop_fire_head (b NOSE).y t h rest di hlt).trans
        (raising_hand_loop_fire_head (b NOSE).y t h rest2 di hlt).symm
  · intro s cfg hr
    rw [classify_of_raising s cfg hr]
    refine ⟨rfl, ?_⟩
    rw [is_raising_hand_mouth, update_presence_mouth]

/-- Witness for C2: with nose at y = 0.4 and one wrist at y = 0.3 and
threshold 0.05, the rule fires (0.1 > 0.05); with the wrist at y = 0.4
(difference exactly 0 ≤ threshold, and in particular at threshold 0 the
exact boundary) it does not. -/
theorem raising_hand_fires_iff_witness :
    (is_raising_hand (some body1) [hand1] (1/20) {}).1 = true ∧
    (is_raising_hand (some body1) [hand_low] (0 : ℚ) {}).1 = false :=
  ⟨(raising_hand_fires_iff body1 [hand1] (1/20) {} (by simp)).1.mpr
      ⟨hand1, by simp,
        by norm_num [body1, hand1, const_point, NOSE, WRIST]⟩,
   (raising_hand_fires_iff body1 [hand_low] (0 : ℚ) {} (by simp)).2.1
      (by intro h2 hm
          simp only [List.mem_singleton] at hm
          subst hm
          norm_num [body1, hand_low, const_point, NOSE, WRIST])⟩

/-- C3: with at least one face present (and a nonnegative threshold, as with
the configured 0.15), `_is_shocking` records the mouth ratio
`|lower_lip_y - upper_lip_y| / |chin_y - forehead_y|` of the first face
when the face height is positive, records exactly 0 when
`forehead_y = chin_y` (and then never fires, whatever the lip distance),
and fires iff the recorded ratio strictly exceeds the threshold. -/
theorem shocking_rule_correct (f : FaceLandmarks) (fs : List FaceLandmarks)
    (t : ℚ) (di : DebugInfo) (ht : 0 ≤ t) :
    ((is_shocking (f :: fs) t di).2.mouth_ratio =
       if 0 < |(f 152).y - (f 10).y| then
         |(f 14).y - (f 13).y| / |(f 152).y - (f 10).y| else 0) ∧
    ((is_shocking (f :: fs) t di).1 = true ↔
       t < (is_shocking (f :: fs) t di).2.mouth_ratio) ∧
    ((f 10).y = (f 152).y →
       (is_shocking (f :: fs) t di).2.mouth_ratio = 0 ∧
       (is_shocking (f :: fs) t di).1 = false) := by
  refine ⟨rfl, ?_, ?_⟩
  · simp [is_shocking]
  · intro heq
    constructor
    · simp [is_shocking, heq]
    · simp [is_shocking, heq, not_lt.mpr ht]

/-- Witness for C3: the wide-open synthetic face (ratio 0.3) fires at
threshold 0.15, and a degenerate face with forehead = chin records ratio
0 and does not fire. -/
theorem shocking_rule_correct_witness :
    (is_shocking [wide_mouth_face] (3/20) {}).1 = true ∧
    (is_shocking [face_flat] (3/20) {}).2.mouth_ratio = 0 ∧
    (is_shocking [face_flat] (3/20) {}).1 = false :=
  ⟨(shocking_rule_correct wide_mouth_face [] (3/20) {} (by norm_num)).2.1.mpr
      (by norm_num +decide [is_shocking, wide_mouth_face, const_point, abs]),
   ((shocking_rule_correct face_flat [] (3/20) {} (by norm_num)).2.2
      (by norm_num [face_flat, const_point])).1,
   ((shocking_rule_correct face_flat [] (3/20) {} (by norm_num)).2.2
      (by norm_num [face_flat, const_point])).2⟩

/-- C4: `_is_thinking` does not fire when the faces or the hands are
absent; with a first face and at least one hand it fires iff some
(fingertip, mouth-region point) pair over some hand has 2D Euclidean
distance (x and y only) strictly below the threshold; and when it wins
(RaisingHand not firing) the mouth ratio metric keeps its reset value 0,
the rule itself setting no metric. -/
theorem thinking_rule_correct (hands : List HandLandmarks)
    (faces : List FaceLandmarks) (t : ℚ) :
    ((faces = [] ∨ hands = []) → is_thinking hands faces t = false) ∧
    (∀ f fs, faces = f :: fs → hands ≠ [] →
      (is_thinking hands faces t = true ↔
        ∃ hand ∈ hands, ∃ ft ∈ finger_tips hand, ∃ mp ∈ mouth_points f,
          Real.sqrt ((((ft.x - mp.x) ^ 2 + (ft.y - mp.y) ^ 2 : ℚ)) : ℝ) <
            (t : ℝ))) ∧
    (∀ (s : LandmarkSnapshot) (cfg : ThresholdConfig),
      ¬ raising_cond s cfg → thinking_cond s cfg →
      (classify s cfg).1 = "thinking" ∧ (classify s cfg).2.mouth_ratio = 0) := by
  refine ⟨?_, ?_, ?_⟩
  · rintro (rfl | rfl)
    · cases hands <;> rfl
    · cases faces <;> rfl
  · rintro f fs rfl hne
    cases hands with
    | nil => exact absurd rfl hne
    | cons h0 hs =>
      refine (is_thinking_cons_iff f fs h0 hs t).trans ?_
      exact exists_congr fun hand => and_congr_right fun _ =>
        exists_congr fun ft => and_congr_right fun _ =>
          exists_congr fun mp => and_congr_right fun _ =>
            close_to_mouth_iff_sqrt t ft mp
  · intro s cfg hnr hth
    rw [classify_of_thinking s cfg hnr hth]
    refine ⟨rfl, ?_⟩
    rw [is_raising_hand_mouth, update_presence_mouth]

/-- Witness for C4: one hand at (0.5, 0.3) and the flat face at
(0.5, 0.31) are 0.01 apart, below the 0.08 threshold, so the rule fires;
with no hands it does not. -/
theorem thinking_rule_correct_witness :
    is_thinking [hand1] [face_flat] (2/25) = true ∧
    is_thinking [] [face_flat] (2/25) = false :=
  ⟨((thinking_rule_correct [hand1] [face_flat] (2/25)).2.1 face_flat [] rfl
      (by simp)).mpr
      ⟨hand1, by simp, hand1 THUMB_TIP, by simp [finger_tips],
        face_flat 13, by simp [mouth_points],
        (close_to_mouth_iff_sqrt (2/25) (hand1 THUMB_TIP) (face_flat 13)).mp
          (by norm_num +decide [close_to_mouth, dist2, hand1, face_flat,
            const_point, THUMB_TIP])⟩,
   (thinking_rule_correct [] [face_flat] (2/25)).1 (Or.inr rfl)⟩

/-- C5: the `hand_height` metric is per-hand, not a maximum: when the rule
fires it holds the value of the hand being evaluated at success, when no
hand exceeds the threshold it holds the last hand's value (later hands
overwriting earlier ones), and when body landmarks or all hands are
absent it is set to 0 and the rule does not fire. -/
theorem hand_height_metric (t : ℚ) (di : DebugInfo) :
    (∀ hands, is_raising_hand none hands t di =
       (false, { di with hand_height := 0 })) ∧
    (∀ b, is_raising_hand (some b) [] t di =
       (false, { di with hand_height := 0 })) ∧
    (∀ (b : BodyLandmarks) (pre : List HandLandmarks) (h : HandLandmarks)
       (post : List HandLandmarks),
       (∀ h2 ∈ pre, (b NOSE).y - (h2 WRIST).y ≤ t) →
       t < (b NOSE).y - (h WRIST).y →
       is_raising_hand (some b) (pre ++ h :: post) t di =
         (true, { di with hand_height := (b NOSE).y - (h WRIST).y })) ∧
    (∀ (b : BodyLandmarks) (hands : List HandLandmarks) (h : HandLandmarks),
       (∀ h2 ∈ hands, (b NOSE).y - (h2 WRIST).y ≤ t) →
       hands.getLast? = some h →
       is_raising_hand (some b) hands t di =
         (false, { di with hand_height := (b NOSE).y - (h WRIST).y })) := by
  refine ⟨fun hands => rfl, fun b => rfl, ?_, ?_⟩
  · intro b pre h post hpre hh
    cases pre with
    | nil => exact raising_hand_loop_first_fire (b NOSE).y t [] h post di hpre hh
    | cons p ps =>
      exact raising_hand_loop_first_fire (b NOSE).y t (p :: ps) h post di hpre hh
  · intro b hands h hall hlast
    cases hands with
    | nil => simp at hlast
    | cons p ps => exact raising_hand_loop_no_fire (b NOSE).y t (p :: ps) di hall h hlast

/-- Witness for C5: with nose at y = 0.4, a first hand at difference 0
(not firing) and a second hand at difference 0.1 (firing), the rule fires
with the second hand's value recorded; with both hands low the rule does
not fire and the last hand's value 0 is recorded. -/
theorem hand_height_metric_witness :
    is_raising_hand (some body1) ([hand_low] ++ hand1 :: []) (1/20) {} =
      (true, { ({} : DebugInfo) with
        hand_height := (body1 NOSE).y - (hand1 WRIST).y }) ∧
    is_raising_hand (some body1) [hand_low, hand_low] (1/20) {} =
      (false, { ({} : DebugInfo) with
        hand_height := (body1 NOSE).y - (hand_low WRIST).y }) :=
  ⟨(hand_height_metric (1/20) {}).2.2.1 body1 [hand_low] hand1 []
      (by intro h2 hm
          simp only [List.mem_singleton] at hm
          subst hm
          norm_num [body1, hand_low, const_point, NOSE, WRIST])
      (by norm_num [body1, hand1, const_point, NOSE, WRIST]),
   (hand_height_metric (1/20) {}).2.2.2 body1 [hand_low, hand_low] hand_low
      (by intro h2 hm
          simp only [List.mem_cons, List.mem_singleton, List.not_mem_nil,
            or_false] at hm
          rcases hm with rfl | rfl <;>
            norm_num [body1, hand_low, const_point, NOSE, WRIST])
      (by simp)⟩

/-- C6: the empty snapshot (no body, no hands, no faces) classifies as
"default" with all debug metrics at their reset values. -/
theorem classify_empty_snapshot (cfg : ThresholdConfig) :
    classify empty_snapshot cfg =
      ("default", { mouth_ratio := 0, hand_height := 0,
                    hands_detected := 0, face_detected := false }) := rfl

/-- C7: classification is total — for every combination of present or
absent body, hand and face landmarks it returns one of the four labels
(absence only ever means "rule does not fire" or a zeroed metric). -/
theorem classify_total (s : LandmarkSnapshot) (cfg : ThresholdConfig) :
    (classify s cfg).1 = "raising_hand" ∨ (classify s cfg).1 = "thinking" ∨
    (classify s cfg).1 = "shocking" ∨ (classify s cfg).1 = "default" := by
  simp only [classify, determine_pose]
  split_ifs <;> simp

/-- C8: the classification path of `detect_pose` is a pure function of the
snapshot and thresholds: the stored metrics of the previous frame never
influence the result (they are reset at the start of every successful
call), and repeating a call with the identical snapshot and thresholds,
even from the state the first call produced, yields the identical
(label, metrics) pair. -/
theorem detect_pose_pure (s : LandmarkSnapshot) (cfg : ThresholdConfig)
    (st1 st2 : DebugInfo) :
    detect_pose cfg st1 (FrameOutcome.ok s) =
      detect_pose cfg st2 (FrameOutcome.ok s) ∧
    detect_pose cfg (detect_pose cfg st1 (FrameOutcome.ok s)).2
        (FrameOutcome.ok s) =
      detect_pose cfg st1 (FrameOutcome.ok s) := ⟨rfl, rfl⟩

/-- C9: when frame conversion or a detector raises inside `detect_pose`,
the call returns the label "default" and the stored debug metrics of the
previous successful call remain visible unchanged (the early returns
precede the per-call reset). -/
theorem detect_pose_error_keeps_metrics (cfg : ThresholdConfig)
    (stored : DebugInfo) :
    detect_pose cfg stored FrameOutcome.convert_error = ("default", stored) ∧
    detect_pose cfg stored FrameOutcome.detect_error = ("default", stored) :=
  ⟨rfl, rfl⟩

/-- C10: after classification the mouth ratio metric is nonnegative: it is
the reset value 0, the division guard's 0, or a quotient of two absolute
values with positive denominator. -/
theorem classify_mouth_ratio_nonneg (s : LandmarkSnapshot)
    (cfg : ThresholdConfig) :
    0 ≤ (classify s cfg).2.mouth_ratio := by
  have hbase : (is_raising_hand s.body s.hands cfg.hand_raise_threshold
      (update_presence s {})).2.mouth_ratio = 0 := by
    rw [is_raising_hand_mouth, update_presence_mouth]
  simp only [classify, determine_pose]
  split_ifs with h1 h2 h3
  · simp [hbase]
  · simp [hbase]
  · exact is_shocking_mouth_nonneg _ _ _
  · exact is_shocking_mouth_nonneg _ _ _
